import Mathlib

/-!
# Verification of the api-docs-tool endpoint probing pipeline

A shallow embedding of `src/api-get.py` (endpoint normalizer, method
filter, probe selector/executor, result aggregator, report renderers)
together with theorems checking the natural-language specification
against it.

Python strings are modelled as Lean `String`; the handful of Python
`str` primitives the script uses (`upper`, `strip`, `rstrip('/')`,
`split(',')`, `startswith('/')`) are modelled explicitly on the
underlying character lists so that every definition is executable by
the kernel.  Python dicts that the script iterates (`paths`, the
per-path method tables) are modelled as association lists, which is
faithful because CPython dicts preserve insertion order.  Network
effects are modelled by an explicit oracle (`NetResult`) describing
what the world does when a request with a given method is issued
against a given URL.
-/

namespace ApiGet

/-! ## Modelled Python string primitives -/

/-- Model of Python `str.upper()` (ASCII range, which covers every
string the script uppercases). -/
def upperStr (s : String) : String := ⟨s.data.map Char.toUpper⟩

/-- Characters removed by Python `str.strip()` (the ASCII whitespace
subset, which covers the method tokens the script strips). -/
def isPySpace (c : Char) : Bool :=
  c = ' ' || c = '\t' || c = '\n' || c = '\r' || c = '\x0b' || c = '\x0c'

/-- Model of Python `str.strip()`. -/
def pyStrip (s : String) : String :=
  ⟨(((s.data.dropWhile isPySpace).reverse).dropWhile isPySpace).reverse⟩

/-- Model of Python `str.rstrip('/')`: remove every trailing `'/'`. -/
def rstripSlash (s : String) : String :=
  ⟨((s.data.reverse.dropWhile (· = '/'))).reverse⟩

/-- Model of Python `str.split(sep)` for a one-character separator:
splits at every occurrence, keeping empty pieces, and yields `[""]`
on the empty string (matching CPython). -/
def splitOnChar (sep : Char) : List Char → List (List Char)
  | [] => [[]]
  | c :: rest =>
    let r := splitOnChar sep rest
    if c = sep then [] :: r
    else (c :: r.headD []) :: r.tail

/-- Model of Python `str.startswith('/')` specialised to one char. -/
def pyStartsWith (s : String) (c : Char) : Bool := s.data.head? == some c

/-! ## Data model (§3 of the spec; `extract_endpoints` output shape) -/

/-- One endpoint descriptor, the dict built at `api-get.py:87-95`.
`status_code`/`content_length` model the keys later attached in place
by `request_all_endpoints` (lines 251-252, 258-260): `none` means the
dict does not have the key. -/
structure Endpoint where
  path : String
  full_url : String
  method : String
  summary : String
  description : String
  operationId : String
  tags : List String
  status_code : Option Int
  content_length : Option Nat
  deriving Repr, DecidableEq

instance : Inhabited Endpoint :=
  ⟨{ path := "", full_url := "", method := "", summary := "", description := "",
     operationId := "", tags := [], status_code := none, content_length := none }⟩

/-- The static fields of a descriptor (everything except the attached
probe outcome), used to state order/content preservation. -/
structure EndpointCore where
  path : String
  full_url : String
  method : String
  summary : String
  description : String
  operationId : String
  tags : List String
  deriving Repr, DecidableEq

def Endpoint.core (ep : Endpoint) : EndpointCore :=
  ⟨ep.path, ep.full_url, ep.method, ep.summary, ep.description, ep.operationId, ep.tags⟩

/-- The fixed HTTP verb vocabulary (`api-get.py:82` and `:118`). -/
def valid_methods : List String :=
  ["GET", "POST", "PUT", "DELETE", "PATCH", "HEAD", "OPTIONS"]

/-! ## Probe executor (`request_endpoint`, `api-get.py:161-214`) -/

/-- What the network does for one issued request: either a completed
exchange (`requests` returned a response with a status code and a body
of some byte length), or one of the exception classes caught at
`api-get.py:207-214`. -/
inductive NetResult where
  | response (status_code : Int) (body_len : Nat)
  | timeout
  | connectionError
  | requestError
  | otherError
  deriving Repr, DecidableEq

/-- The classification applied by the `try`/`except` tail of
`request_endpoint` (lines 202-214): a completed exchange yields the
literal status code and `len(response.content)` (`0` when the body is
empty), and each exception class yields its sentinel with length 0. -/
def classify : NetResult → Int × Nat
  | .response s l => (s, l)
  | .timeout => (-1, 0)
  | .connectionError => (-2, 0)
  | .requestError => (-3, 0)
  | .otherError => (-4, 0)

/-- `request_endpoint` (`api-get.py:161-214`).  `net method url` is the
network oracle consulted when the corresponding `requests.<method>` call
is executed.  Note the dispatch chain at lines 184-200 has branches for
GET/POST/PUT/PATCH/HEAD/OPTIONS only; every other method — including
DELETE when `include_delete` is true — falls into the final `else` and
returns `(0, 0)` without any request being issued. -/
def request_endpoint (net : String → String → NetResult)
    (endpoint : Endpoint) (include_delete : Bool) : Int × Nat :=
  if upperStr endpoint.method = "DELETE" ∧ include_delete = false then (0, 0)
  else if upperStr endpoint.method = "GET" then classify (net "GET" endpoint.full_url)
  else if upperStr endpoint.method = "POST" then classify (net "POST" endpoint.full_url)
  else if upperStr endpoint.method = "PUT" then classify (net "PUT" endpoint.full_url)
  else if upperStr endpoint.method = "PATCH" then classify (net "PATCH" endpoint.full_url)
  else if upperStr endpoint.method = "HEAD" then classify (net "HEAD" endpoint.full_url)
  else if upperStr endpoint.method = "OPTIONS" then classify (net "OPTIONS" endpoint.full_url)
  else (0, 0)

/-- Instrumentation of `request_endpoint`: the list of `(method, url)`
HTTP requests the function actually issues on each control path
(one `requests.*` call per branch of lines 184-198, none on the early
return at 176-177 or the final `else` at 199-200). -/
def issued_requests (endpoint : Endpoint) (include_delete : Bool) :
    List (String × String) :=
  if upperStr endpoint.method = "DELETE" ∧ include_delete = false then []
  else if upperStr endpoint.method = "GET" then [("GET", endpoint.full_url)]
  else if upperStr endpoint.method = "POST" then [("POST", endpoint.full_url)]
  else if upperStr endpoint.method = "PUT" then [("PUT", endpoint.full_url)]
  else if upperStr endpoint.method = "PATCH" then [("PATCH", endpoint.full_url)]
  else if upperStr endpoint.method = "HEAD" then [("HEAD", endpoint.full_url)]
  else if upperStr endpoint.method = "OPTIONS" then [("OPTIONS", endpoint.full_url)]
  else []

/-! ## Endpoint normalizer (`extract_endpoints`, `api-get.py:53-98`) -/

/-- One operation object: the dict fields that `extract_endpoints`
reads with `.get(..., default)` (lines 91-94).  `none` models an
absent key. -/
structure Operation where
  summary : Option String
  description : Option String
  operationId : Option String
  tags : Option (List String)
  deriving Repr, DecidableEq

/-- One entry of the `servers` list; `url` may be absent (line 73 reads
it with `.get('url', '')`). -/
structure Server where
  url : Option String
  deriving Repr, DecidableEq

/-- The parsed specification document as `extract_endpoints` reads it:
`paths` is an insertion-ordered dict of path → (method → operation),
modelled as association lists; `servers` is the server list.  (The
`info` dict consumed only by the HTML header is not modelled.) -/
structure ApiDoc where
  paths : List (String × List (String × Operation))
  servers : List Server
  deriving Repr, DecidableEq

/-- Model of `urllib.parse.urlparse(url).scheme` / `.netloc` for URLs
of the standard absolute form `scheme://netloc/…` (the script's
fallback at `api-get.py:76-78` only needs these two components; for a
string with no `"://"` separator both components are empty, matching
`urlparse` on scheme-less inputs with no `//`). -/
def schemeNetloc (s : String) : String × String :=
  let pre := s.data.takeWhile (· ≠ ':')
  match s.data.drop pre.length with
  | ':' :: '/' :: '/' :: r =>
      (⟨pre⟩, ⟨r.takeWhile (fun c => c ≠ '/' && c ≠ '?' && c ≠ '#')⟩)
  | _ => ("", "")

/-- The base-URL resolution of `api-get.py:70-78`.  Python truthiness:
an absent (`None`) or empty override falls through to the `servers`
branch; an empty `servers` list falls through to the document-URL
fallback. -/
def resolved_base (api_docs : ApiDoc) (api_docs_url : String)
    (api_base_url : Option String) : String :=
  if api_base_url.getD "" ≠ "" then rstripSlash (api_base_url.getD "")
  else if api_docs.servers ≠ [] then
    rstripSlash ((api_docs.servers.headD ⟨none⟩).url.getD "")
  else (schemeNetloc api_docs_url).1 ++ "://" ++ (schemeNetloc api_docs_url).2

/-- Line 84: ensure the path starts with `/` before concatenation. -/
def clean_path_of (path : String) : String :=
  if pyStartsWith path '/' then path else "/" ++ path

/-- `extract_endpoints` (`api-get.py:53-98`): for every
`(path, method, operation)` triple whose upper-cased method is in the
verb vocabulary, emit one descriptor; non-verb keys are skipped.  The
emitted dict has no `status_code`/`content_length` keys yet. -/
def extract_endpoints (api_docs : ApiDoc) (api_docs_url : String)
    (api_base_url : Option String) : List Endpoint :=
  let base_url := resolved_base api_docs api_docs_url api_base_url
  api_docs.paths.flatMap (fun pm =>
    pm.2.filterMap (fun md =>
      if valid_methods.contains (upperStr md.1) then
        some { path := pm.1,
               full_url := base_url ++ clean_path_of pm.1,
               method := upperStr md.1,
               summary := md.2.summary.getD "",
               description := md.2.description.getD "",
               operationId := md.2.operationId.getD "",
               tags := md.2.tags.getD [],
               status_code := none,
               content_length := none }
      else none))

/-! ## Method filter (`parse_methods`, `api-get.py:101-127`) -/

/-- `parse_methods` (`api-get.py:101-127`): split on commas, strip and
upper-case each token, and if any token is invalid keep only the valid
ones (when every token is valid the list is returned unchanged, which
coincides with filtering). -/
def parse_methods (method_string : String) : List String :=
  if method_string = "" then []
  else
    let methods := (splitOnChar ',' method_string.data).map
      (fun cs => upperStr (pyStrip ⟨cs⟩))
    let invalid_methods := methods.filter (fun m => !(valid_methods.contains m))
    if invalid_methods.isEmpty then methods
    else methods.filter (fun m => valid_methods.contains m)

/-! ## Probe selector and result aggregator
(`request_all_endpoints`, `api-get.py:217-263`)

The Python function mutates the endpoint dicts in place (each dict
object occurs once in the list), so attaching outcomes by list
position is an exact model.  We expose the internal `let`-bound lists
(`filtered_endpoints`, `endpoints_to_request`) as index lists over the
original sequence. -/

/-- The per-endpoint test of the list comprehension at line 234
(`ep['method'].upper() in allowed_methods`); with a falsy
(`None` or empty) `allowed_methods`, no filtering happens. -/
def keepMethod (allowed_methods : Option (List String)) (ep : Endpoint) : Bool :=
  match allowed_methods with
  | some l => if l.isEmpty then true else l.contains (upperStr ep.method)
  | none => true

/-- Indices (into the original sequence) of `filtered_endpoints`
(lines 233-237). -/
def filtered_idx (endpoints : List Endpoint)
    (allowed_methods : Option (List String)) : List Nat :=
  (List.range endpoints.length).filter
    (fun i => keepMethod allowed_methods (endpoints.getD i default))

/-- Python slice `l[:n]` for an arbitrary (possibly negative) `n`. -/
def pyTake (n : Int) (l : List α) : List α :=
  if 0 ≤ n then l.take n.toNat else l.take (l.length - (-n).toNat)

/-- Indices of `endpoints_to_request` (lines 239-244): the limit is
applied only when truthy (nonzero). -/
def to_request_idx (endpoints : List Endpoint)
    (allowed_methods : Option (List String)) (request_limit : Option Int) :
    List Nat :=
  let f := filtered_idx endpoints allowed_methods
  match request_limit with
  | some n => if n ≠ 0 then pyTake n f else f
  | none => f

/-- The in-place attachment `endpoint['status_code'] = …;
endpoint['content_length'] = …` (lines 251-252 and 258-260). -/
def attach_result (ep : Endpoint) (r : Int × Nat) : Endpoint :=
  { ep with status_code := some r.1, content_length := some r.2 }

/-- The final state of the endpoint at position `i` after
`request_all_endpoints` ran: probed endpoints (members of
`endpoints_to_request`) carry the probe result (the loop at 246-255,
with probe serial number = position in the to-request list), the
remaining filtered endpoints carry the sentinel `(0, 0)` (lines
257-260), and endpoints excluded by the method filter are untouched. -/
def probe_result_at (net : Nat → String → String → NetResult)
    (endpoints : List Endpoint) (request_limit : Option Int)
    (include_delete : Bool) (allowed_methods : Option (List String))
    (i : Nat) : Endpoint :=
  if i ∈ to_request_idx endpoints allowed_methods request_limit then
    attach_result (endpoints.getD i default)
      (request_endpoint
        (net ((to_request_idx endpoints allowed_methods request_limit).indexOf i))
        (endpoints.getD i default) include_delete)
  else if i ∈ filtered_idx endpoints allowed_methods then
    attach_result (endpoints.getD i default) (0, 0)
  else endpoints.getD i default

/-- `request_all_endpoints` (`api-get.py:217-263`): returns the full
original sequence (line 263 returns `endpoints` itself), with outcomes
attached in place as described by `probe_result_at`. -/
def request_all_endpoints (net : Nat → String → String → NetResult)
    (endpoints : List Endpoint) (request_limit : Option Int)
    (include_delete : Bool) (allowed_methods : Option (List String)) :
    List Endpoint :=
  (List.range endpoints.length).map
    (probe_result_at net endpoints request_limit include_delete allowed_methods)

/-- The full list of HTTP requests issued by one run of
`request_all_endpoints`, in probe order. -/
def probe_log (endpoints : List Endpoint) (request_limit : Option Int)
    (include_delete : Bool) (allowed_methods : Option (List String)) :
    List (String × String) :=
  (to_request_idx endpoints allowed_methods request_limit).flatMap
    (fun i => issued_requests (endpoints.getD i default) include_delete)

/-! ## Report renderers (`generate_html` rows, `api-get.py:699-757`;
`generate_csv` rows, `api-get.py:844-880`) -/

/-- Round the rational `a / b` (with `b > 0`) to the nearest integer,
ties to even — the rounding CPython's `format(x, '.1f')` applies to the
exact binary value of `x`. -/
def roundHalfEven (a b : Nat) : Nat :=
  let q := a / b
  let r := a % b
  if 2 * r < b then q
  else if b < 2 * r then q + 1
  else if q % 2 = 0 then q else q + 1

/-- Model of the Python f-string `f"{n / d:.1f}"` for natural `n` and
`d` a power of two (the script only uses `d = 1024` and
`d = 1024*1024`): for `n < 2^53` the float quotient is exactly `n / d`,
so formatting one decimal place is round-half-even of `10·n/d`. -/
def formatOneDecimal (n d : Nat) : String :=
  let m := roundHalfEven (10 * n) d
  toString (m / 10) ++ "." ++ toString (m % 10)

/-- The length cell of the HTML table (`api-get.py:737-747`). -/
def length_display_html (status_code : Int) (content_length : Nat) : String :=
  if status_code = 0 ∨ status_code < 0 then "/"
  else if content_length = 0 then "0"
  else if content_length < 1024 then toString content_length
  else if content_length < 1024 * 1024 then formatOneDecimal content_length 1024 ++ "K"
  else formatOneDecimal content_length (1024 * 1024) ++ "M"

/-- The length cell of the CSV export (`api-get.py:861-871`) — the same
branch chain, duplicated in the source. -/
def length_display_csv (status_code : Int) (content_length : Nat) : String :=
  if status_code = 0 ∨ status_code < 0 then "/"
  else if content_length = 0 then "0"
  else if content_length < 1024 then toString content_length
  else if content_length < 1024 * 1024 then formatOneDecimal content_length 1024 ++ "K"
  else formatOneDecimal content_length (1024 * 1024) ++ "M"

/-- The status cell of the HTML table (`api-get.py:701-731`): display
text and CSS class. -/
def status_display_html (status_code : Int) : String × String :=
  if status_code = 0 then ("跳过", "status-skip")
  else if status_code = -1 then ("超时", "status-timeout")
  else if status_code = -2 then ("连接错误", "status-error")
  else if status_code = -3 then ("请求错误", "status-error")
  else if status_code = -4 then ("未知错误", "status-error")
  else if 200 ≤ status_code ∧ status_code < 300 then (toString status_code, "status-success")
  else if 300 ≤ status_code ∧ status_code < 400 then (toString status_code, "status-redirect")
  else if 400 ≤ status_code ∧ status_code < 500 then (toString status_code, "status-client-error")
  else if 500 ≤ status_code ∧ status_code < 600 then (toString status_code, "status-server-error")
  else (toString status_code, "status-unknown")

/-- The status column of the CSV export (`api-get.py:846-858`). -/
def status_display_csv (status_code : Int) : String :=
  if status_code = 0 then "跳过"
  else if status_code = -1 then "超时"
  else if status_code = -2 then "连接错误"
  else if status_code = -3 then "请求错误"
  else if status_code = -4 then "未知错误"
  else toString status_code

/-- How both renderers read an endpoint's status code:
`endpoint.get('status_code', 0)` (`api-get.py:701,735,846`). -/
def reported_status (ep : Endpoint) : Int := ep.status_code.getD 0

/-- How both renderers read an endpoint's content length:
`endpoint.get('content_length', 0)` (`api-get.py:734,861`). -/
def reported_length (ep : Endpoint) : Nat := ep.content_length.getD 0

/-- The data one HTML table row carries (`api-get.py:749-757`):
index, method, link target and text, status cell, length cell, name.
The name cell is `endpoint['summary'] or endpoint['operationId']`
(Python `or`: the summary when non-empty, else the operation id). -/
structure HtmlRow where
  index : Nat
  method_cell : String
  link_href : String
  link_text : String
  status_cell : String × String
  length_cell : String
  name_cell : String
  deriving Repr, DecidableEq

def html_row (i : Nat) (ep : Endpoint) : HtmlRow :=
  { index := i,
    method_cell := ep.method,
    link_href := ep.full_url,
    link_text := ep.path,
    status_cell := status_display_html (reported_status ep),
    length_cell := length_display_html (reported_status ep) (reported_length ep),
    name_cell := if ep.summary ≠ "" then ep.summary else ep.operationId }

/-- One CSV data row (`api-get.py:873-880`). -/
structure CsvRow where
  method : String
  path : String
  full_url : String
  status_str : String
  length_str : String
  name : String
  deriving Repr, DecidableEq

def csv_row (ep : Endpoint) : CsvRow :=
  { method := ep.method,
    path := ep.path,
    full_url := ep.full_url,
    status_str := status_display_csv (reported_status ep),
    length_str := length_display_csv (reported_status ep) (reported_length ep),
    name := if ep.summary ≠ "" then ep.summary else ep.operationId }

/-! ## Absolute URLs (spec §3: `fullURL` "must always be an absolute
URL", i.e. begin with a scheme and authority) -/

/-- After the scheme's `':'`: the string must continue with `"//"` and
then a nonempty authority (a character other than `'/'`). -/
def absAuth (l : List Char) : Bool :=
  match l with
  | c1 :: c2 :: c3 :: _ => c1 = '/' && c2 = '/' && c3 ≠ '/'
  | _ => false

/-- Scan the tail of a candidate URL for the scheme-terminating `':'`
(failing at a `'/'` that occurs before any `':'`). -/
def absScan : List Char → Bool
  | [] => false
  | c :: rest =>
    if c = ':' then absAuth rest
    else if c = '/' then false
    else absScan rest

/-- Spec predicate: the string begins with a nonempty scheme, then
`"://"`, then a nonempty authority. -/
def isAbsoluteURLChars : List Char → Bool
  | [] => false
  | c :: rest =>
    if c = ':' then false
    else if c = '/' then false
    else absScan rest

def isAbsoluteURL (s : String) : Bool := isAbsoluteURLChars s.data

/-! ## The driver (`main`, `api-get.py:889-1021`)

`main` fetches the document (fatal `sys.exit(1)` inside
`fetch_api_docs` on fetch/decode failure, lines 45-50), extracts
endpoints, parses the method filter (fatal exit when it yields no
valid token, lines 971-975), then either skips probing
(`-request-none`, lines 978-983) or probes with the limit /
destructive-flag combination of lines 986-1000, and only then renders
and writes the report files.  The fetch is external; we model its
outcome as a value.  `Except.error ()` models `sys.exit(1)` before any
output file is written. -/

structure Args where
  url : String
  limit : Option Int
  all : Bool
  method : Option String
  request_none : Bool
  deriving Repr, DecidableEq

inductive FetchResult where
  | ok (doc : ApiDoc)
  | fetchError
  deriving Repr, DecidableEq

/-- The probing phase of `main` (lines 978-1000). -/
def probe_phase (net : Nat → String → String → NetResult)
    (endpoints : List Endpoint) (args : Args)
    (allowed_methods : Option (List String)) : List Endpoint :=
  if args.request_none then endpoints.map (fun ep => attach_result ep (0, 0))
  else
    let p : Option Int × Bool :=
      if args.all then (none, true)
      else match args.limit with
        | some n => if n ≠ 0 then (some n, false) else (none, false)
        | none => (none, false)
    request_all_endpoints net endpoints p.1 p.2 allowed_methods

/-- The run up to the point where the report renderers receive the
final endpoint sequence (lines 960-1000). -/
def run_pipeline (net : Nat → String → String → NetResult)
    (fetch : FetchResult) (args : Args) : Except Unit (List Endpoint) :=
  match fetch with
  | .fetchError => .error ()
  | .ok doc =>
    let endpoints := extract_endpoints doc args.url none
    let mstr := args.method.getD ""
    if mstr ≠ "" then
      let allowed := parse_methods mstr
      if allowed.isEmpty then .error ()
      else .ok (probe_phase net endpoints args (some allowed))
    else .ok (probe_phase net endpoints args none)

/-! ## Concrete fixtures used by witnesses and counterexamples -/

/-- An operation object with every optional field absent. -/
def op0 : Operation := ⟨none, none, none, none⟩

/-- A network oracle on which every issued request fails unclassified. -/
def net0 : Nat → String → String → NetResult := fun _ _ _ => .otherError

/-- A GET endpoint as the normalizer would emit it. -/
def ep_get : Endpoint :=
  { path := "/users", full_url := "https://api.example.com/users", method := "GET",
    summary := "", description := "", operationId := "", tags := [],
    status_code := none, content_length := none }

/-- A second GET endpoint. -/
def ep_get2 : Endpoint :=
  { ep_get with path := "/items", full_url := "https://api.example.com/items" }

/-- A DELETE endpoint as the normalizer would emit it. -/
def ep_delete : Endpoint :=
  { ep_get with
    path := "/users/1",
    full_url := "https://api.example.com/users/1",
    method := "DELETE" }

/-! ## Helper lemmas about the probe selector/aggregator -/

lemma getD_eq_getElem_self {l : List Endpoint} {i : Nat} (h : i < l.length) :
    l.getD i default = l[i] := by
  rw [List.getD_eq_getElem?_getD, List.getElem?_eq_getElem h]
  rfl

lemma length_request_all (net : Nat → String → String → NetResult)
    (eps : List Endpoint) (lim : Option Int) (incl : Bool)
    (al : Option (List String)) :
    (request_all_endpoints net eps lim incl al).length = eps.length := by
  simp [request_all_endpoints]

lemma getD_request_all (net : Nat → String → String → NetResult)
    (eps : List Endpoint) (lim : Option Int) (incl : Bool)
    (al : Option (List String)) {i : Nat} (hi : i < eps.length) :
    (request_all_endpoints net eps lim incl al).getD i default
      = probe_result_at net eps lim incl al i := by
  rw [request_all_endpoints, List.getD_eq_getElem?_getD, List.getElem?_map,
    List.getElem?_range hi]
  rfl

lemma mem_filtered_idx {eps : List Endpoint} {al : Option (List String)} {i : Nat} :
    i ∈ filtered_idx eps al
      ↔ i < eps.length ∧ keepMethod al (eps.getD i default) = true := by
  simp [filtered_idx, List.mem_filter, List.mem_range]

lemma nodup_filtered_idx (eps : List Endpoint) (al : Option (List String)) :
    (filtered_idx eps al).Nodup :=
  List.Nodup.filter _ (List.nodup_range _)

lemma to_request_sub (eps : List Endpoint) (al : Option (List String))
    (lim : Option Int) : to_request_idx eps al lim ⊆ filtered_idx eps al := by
  cases lim with
  | none => exact fun a h => h
  | some n =>
    simp only [to_request_idx, pyTake]
    split_ifs
    · exact List.take_subset _ _
    · exact List.take_subset _ _
    · exact fun a h => h

lemma core_attach (ep : Endpoint) (r : Int × Nat) :
    (attach_result ep r).core = ep.core := rfl

lemma core_probe_result_at (net : Nat → String → String → NetResult)
    (eps : List Endpoint) (lim : Option Int) (incl : Bool)
    (al : Option (List String)) (i : Nat) :
    (probe_result_at net eps lim incl al i).core = (eps.getD i default).core := by
  unfold probe_result_at
  split_ifs <;> rfl

lemma map_core_request_all (net : Nat → String → String → NetResult)
    (eps : List Endpoint) (lim : Option Int) (incl : Bool)
    (al : Option (List String)) :
    (request_all_endpoints net eps lim incl al).map Endpoint.core
      = eps.map Endpoint.core := by
  apply List.ext_getElem
  · simp [request_all_endpoints]
  · intro i h1 h2
    have hi : i < eps.length := by simpa using h2
    simp only [request_all_endpoints, List.getElem_map, List.getElem_range]
    rw [core_probe_result_at, getD_eq_getElem_self hi]

lemma probe_result_at_untouched {net : Nat → String → String → NetResult}
    {eps : List Endpoint} {lim : Option Int} {incl : Bool}
    {al : Option (List String)} {i : Nat}
    (h : keepMethod al (eps.getD i default) = false) :
    probe_result_at net eps lim incl al i = eps.getD i default := by
  have hf : i ∉ filtered_idx eps al := by
    rw [mem_filtered_idx]
    rintro ⟨-, hk⟩
    rw [h] at hk
    exact Bool.false_ne_true hk
  have ht : i ∉ to_request_idx eps al lim := fun hm => hf (to_request_sub _ _ _ hm)
  unfold probe_result_at
  rw [if_neg ht, if_neg hf]

lemma issued_no_delete (ep : Endpoint) :
    ∀ pr ∈ issued_requests ep false, pr.1 ≠ "DELETE" := by
  intro pr hpr
  unfold issued_requests at hpr
  split_ifs at hpr <;> simp_all

/-! ## Helper lemmas about URLs and the normalizer -/

lemma absAuth_append {l t : List Char} (h : absAuth l = true) :
    absAuth (l ++ t) = true := by
  cases l with
  | nil => exact (Bool.false_ne_true h).elim
  | cons c1 l1 =>
    cases l1 with
    | nil => exact (Bool.false_ne_true h).elim
    | cons c2 l2 =>
      cases l2 with
      | nil => exact (Bool.false_ne_true h).elim
      | cons c3 l3 => exact h

lemma absScan_append {l t : List Char} (h : absScan l = true) :
    absScan (l ++ t) = true := by
  induction l with
  | nil => exact (Bool.false_ne_true h).elim
  | cons c rest ih =>
    rw [List.cons_append]
    simp only [absScan] at h ⊢
    split_ifs at h ⊢ with h1 h2
    all_goals first
      | exact absAuth_append h
      | exact ih h

lemma isAbs_append {l t : List Char} (h : isAbsoluteURLChars l = true) :
    isAbsoluteURLChars (l ++ t) = true := by
  cases l with
  | nil => exact (Bool.false_ne_true h).elim
  | cons c rest =>
    rw [List.cons_append]
    simp only [isAbsoluteURLChars] at h ⊢
    split_ifs at h ⊢ with h1 h2
    all_goals exact absScan_append h

lemma isAbs_head_slash {l : List Char} (h : l.head? = some '/') :
    isAbsoluteURLChars l = false := by
  cases l with
  | nil => simp at h
  | cons c rest =>
    have hc : c = '/' := by simpa using h
    subst hc
    simp [isAbsoluteURLChars]

lemma absScan_no_colon {l t : List Char} (hl : ∀ c ∈ l, c ≠ ':')
    (h : absScan (l ++ ':' :: t) = true) : absAuth t = true := by
  induction l with
  | nil =>
    rw [List.nil_append] at h
    simpa [absScan] using h
  | cons c rest ih =>
    rw [List.cons_append] at h
    simp only [absScan] at h
    rw [if_neg (hl c (List.mem_cons_self c rest))] at h
    split_ifs at h with h2
    all_goals exact ih (fun d hd => hl d (List.mem_cons_of_mem _ hd)) h

lemma isAbs_no_colon {l t : List Char} (hl : ∀ c ∈ l, c ≠ ':')
    (h : isAbsoluteURLChars (l ++ ':' :: t) = true) : absAuth t = true := by
  cases l with
  | nil =>
    rw [List.nil_append] at h
    simp [isAbsoluteURLChars] at h
  | cons c rest =>
    rw [List.cons_append] at h
    simp only [isAbsoluteURLChars] at h
    rw [if_neg (hl c (List.mem_cons_self c rest))] at h
    split_ifs at h with h2
    all_goals exact absScan_no_colon (fun d hd => hl d (List.mem_cons_of_mem _ hd)) h

lemma head?_dropWhile_ne {p : Char → Bool} {l : List Char} {a : Char}
    (h : (l.dropWhile p).head? = some a) : p a = false := by
  induction l with
  | nil => simp [List.dropWhile] at h
  | cons c rest ih =>
    rw [List.dropWhile_cons] at h
    split_ifs at h with hc
    · exact ih h
    · have : c = a := by simpa using h
      subst this
      exact Bool.eq_false_iff.mpr hc

lemma rstrip_no_trailing (s : String) :
    ((rstripSlash s).data).getLast? ≠ some '/' := by
  show ((s.data.reverse.dropWhile (· = '/')).reverse).getLast? ≠ some '/'
  rw [List.getLast?_reverse]
  intro h
  have hfalse := head?_dropWhile_ne h
  simp at hfalse

lemma schemeNetloc_fst_no_colon (s : String) :
    ∀ c ∈ (schemeNetloc s).1.data, c ≠ ':' := by
  simp only [schemeNetloc]
  split
  · intro c hc
    have := List.mem_takeWhile_imp hc
    simpa using this
  · intro c hc
    rw [show ("" : String).data = [] from rfl] at hc
    exact absurd hc (List.not_mem_nil c)

lemma schemeNetloc_snd_no_slash (s : String) :
    ∀ c ∈ (schemeNetloc s).2.data, c ≠ '/' := by
  simp only [schemeNetloc]
  split
  · intro c hc
    have := List.mem_takeWhile_imp hc
    simp only [Bool.and_eq_true, decide_eq_true_eq] at this
    exact this.1.1
  · intro c hc
    rw [show ("" : String).data = [] from rfl] at hc
    exact absurd hc (List.not_mem_nil c)

lemma fallback_data (url : String) :
    ((schemeNetloc url).1 ++ "://" ++ (schemeNetloc url).2).data
      = (schemeNetloc url).1.data
        ++ ':' :: '/' :: '/' :: (schemeNetloc url).2.data := by
  rw [String.data_append, String.data_append]
  rw [show ("://" : String).data = [':', '/', '/'] from rfl, List.append_assoc]
  rfl

lemma fallback_snd_ne_nil {url : String}
    (habs : isAbsoluteURL
      ((schemeNetloc url).1 ++ "://" ++ (schemeNetloc url).2) = true) :
    (schemeNetloc url).2.data ≠ [] := by
  intro hemp
  rw [isAbsoluteURL, fallback_data, hemp] at habs
  have hauth := isAbs_no_colon (schemeNetloc_fst_no_colon url) habs
  exact absurd hauth (by decide)

lemma fallback_no_trailing (url : String)
    (habs : isAbsoluteURL
      ((schemeNetloc url).1 ++ "://" ++ (schemeNetloc url).2) = true) :
    ((schemeNetloc url).1 ++ "://" ++ (schemeNetloc url).2).data.getLast?
      ≠ some '/' := by
  have hne := fallback_snd_ne_nil habs
  rw [fallback_data]
  rw [show (':' :: '/' :: '/' :: (schemeNetloc url).2.data)
      = [':', '/', '/'] ++ (schemeNetloc url).2.data from rfl]
  rw [← List.append_assoc, List.getLast?_append,
    List.getLast?_eq_getLast _ hne]
  intro h
  have hmem := List.getLast_mem hne
  have := schemeNetloc_snd_no_slash url _ hmem
  simp only [Option.or] at h
  exact this (by injection h)

lemma clean_path_head (p : String) :
    (clean_path_of p).data.head? = some '/' := by
  unfold clean_path_of
  split_ifs with h
  · unfold pyStartsWith at h
    rwa [beq_iff_eq] at h
  · rw [String.data_append, show ("/" : String).data = ['/'] from rfl]
    rfl

lemma base_no_trailing (doc : ApiDoc) (url : String) (ov : Option String)
    (habs : isAbsoluteURL (resolved_base doc url ov) = true) :
    (resolved_base doc url ov).data.getLast? ≠ some '/' := by
  unfold resolved_base at habs ⊢
  by_cases h1 : ov.getD "" ≠ ""
  · rw [if_pos h1]
    exact rstrip_no_trailing _
  · rw [if_neg h1] at habs ⊢
    by_cases h2 : doc.servers ≠ []
    · rw [if_pos h2]
      exact rstrip_no_trailing _
    · rw [if_neg h2] at habs ⊢
      exact fallback_no_trailing url habs

lemma extract_mem_spec {doc : ApiDoc} {url : String} {ov : Option String}
    {ep : Endpoint} (h : ep ∈ extract_endpoints doc url ov) :
    ep.full_url = resolved_base doc url ov ++ clean_path_of ep.path
    ∧ ep.status_code = none ∧ ep.content_length = none := by
  unfold extract_endpoints at h
  rw [List.mem_flatMap] at h
  obtain ⟨pm, -, h⟩ := h
  rw [List.mem_filterMap] at h
  obtain ⟨md, -, h⟩ := h
  split_ifs at h
  obtain rfl := Option.some.inj h
  exact ⟨rfl, rfl, rfl⟩

/-! ## Claim theorems -/

/-- The spec's §8 base-URL example document: one path `users` (no
leading slash) with a GET operation, no `servers` entry. -/
def docEx : ApiDoc := ⟨[("users", [("get", op0)])], []⟩

/-- The endpoint the normalizer emits for `docEx` fetched from
`https://api.example.com/v2/api-docs`. -/
def epEx : Endpoint :=
  { path := "users", full_url := "https://api.example.com/users", method := "GET",
    summary := "", description := "", operationId := "", tags := [],
    status_code := none, content_length := none }

/-- A document whose `servers` list is present but whose first entry
has no `url` key. -/
def docSrv : ApiDoc := ⟨[("/users", [("get", op0)])], [⟨none⟩]⟩

/-- **C1** (code bug).  The claim says that when selection permits a
DELETE endpoint (destructive flag set), `request_endpoint` issues a
DELETE request and returns a real probe result.  The code contradicts
its own documentation (`-all`: "request all endpoints, including the
DELETE method", `api-get.py:908,932,989`): the dispatch chain at lines
184-200 has no `DELETE` branch, so a DELETE endpoint with
`include_delete=True` falls into the final `else` and yields the
`Skipped` sentinel `(0, 0)` with no request issued at all — for every
network oracle. -/
theorem claim_C1_delete_never_issued :
    ∀ net : String → String → NetResult,
      request_endpoint net ep_delete true = (0, 0)
      ∧ issued_requests ep_delete true = [] := by
  intro net
  refine ⟨?_, by decide⟩
  unfold request_endpoint
  rw [if_neg (by decide), if_neg (by decide), if_neg (by decide), if_neg (by decide),
    if_neg (by decide), if_neg (by decide), if_neg (by decide)]

/-- **C2** (corrected).  The original claim — every endpoint handed to
the renderer carries exactly one attached ProbeOutcome, including
endpoints excluded by the method allow-list — fails on the code (see
the counterexample): `request_all_endpoints` only assigns the sentinel
to `filtered_endpoints[len(endpoints_to_request):]` (lines 257-260),
which never contains endpoints removed by the allow-list.  What holds
is: the renderer receives the full original sequence in original order
(all static fields preserved), every endpoint passing the method
filter carries exactly one attached outcome (a probe result or the
`(0,0)` sentinel), and every endpoint excluded by the allow-list is
passed through completely unmodified, with no outcome attached (the
renderers later default it to `Skipped`, claim C10). -/
theorem claim_C2_outcome_attachment (net : Nat → String → String → NetResult)
    (eps : List Endpoint) (lim : Option Int) (incl : Bool)
    (al : Option (List String)) :
    (request_all_endpoints net eps lim incl al).map Endpoint.core = eps.map Endpoint.core
    ∧ (∀ i, i < eps.length → keepMethod al (eps.getD i default) = true →
        ((request_all_endpoints net eps lim incl al).getD i default).status_code.isSome = true
        ∧ ((request_all_endpoints net eps lim incl al).getD i default).content_length.isSome = true)
    ∧ (∀ i, i < eps.length → keepMethod al (eps.getD i default) = false →
        (request_all_endpoints net eps lim incl al).getD i default
          = eps.getD i default) := by
  refine ⟨map_core_request_all net eps lim incl al, ?_, ?_⟩
  · intro i hi hk
    rw [getD_request_all net eps lim incl al hi]
    unfold probe_result_at
    split_ifs with h1 h2
    · exact ⟨rfl, rfl⟩
    · exact ⟨rfl, rfl⟩
    · exact absurd (mem_filtered_idx.mpr ⟨hi, hk⟩) h2
  · intro i hi hk
    rw [getD_request_all net eps lim incl al hi]
    exact probe_result_at_untouched hk

/-- Counterexample for C2 as stated: a GET endpoint excluded by the
allow-list `["POST"]` reaches the renderer with **no** attached
outcome (`status_code` key absent), contradicting "no endpoint,
including one excluded by the method allow-list, is left without an
outcome". -/
theorem claim_C2_counterexample :
    ((request_all_endpoints net0 [ep_get] none false (some ["POST"])).getD 0
        default).status_code = none := by
  decide

/-- Witness for C2: with no allow-list, the single GET endpoint passes
the filter and gets an outcome attached. -/
theorem claim_C2_witness :
    keepMethod none (([ep_get] : List Endpoint).getD 0 default) = true
    ∧ ((request_all_endpoints net0 [ep_get] none false none).getD 0
        default).status_code.isSome = true :=
  ⟨by decide,
   ((claim_C2_outcome_attachment net0 [ep_get] none false none).2.1 0 (by decide)
     (by decide)).1⟩

/-- **C3** (confirmed).  With the destructive flag false, every DELETE
endpoint of a normalizer-produced sequence (no outcome attached yet)
ends with reported outcome `Skipped` (status 0, length 0) — read the
way both renderers read it — and no DELETE request is ever issued,
regardless of the method allow-list and the request limit (the limit
is applied first; a DELETE inside the limit window still comes back
`(0,0)` from `request_endpoint`'s guard at lines 176-177). -/
theorem claim_C3_delete_skipped (net : Nat → String → String → NetResult)
    (eps : List Endpoint) (lim : Option Int) (al : Option (List String))
    (i : Nat) (hi : i < eps.length)
    (hm : upperStr (eps.getD i default).method = "DELETE")
    (hs : (eps.getD i default).status_code = none)
    (hl : (eps.getD i default).content_length = none) :
    reported_status ((request_all_endpoints net eps lim false al).getD i default) = 0
    ∧ reported_length ((request_all_endpoints net eps lim false al).getD i default) = 0
    ∧ (∀ pr ∈ probe_log eps lim false al, pr.1 ≠ "DELETE") := by
  have hlog : ∀ pr ∈ probe_log eps lim false al, pr.1 ≠ "DELETE" := by
    intro pr hpr
    rw [probe_log, List.mem_flatMap] at hpr
    obtain ⟨j, -, hpr⟩ := hpr
    exact issued_no_delete _ pr hpr
  rw [getD_request_all net eps lim false al hi]
  unfold probe_result_at
  split_ifs with h1 h2
  · have hreq : request_endpoint (net ((to_request_idx eps al lim).indexOf i))
        (eps.getD i default) false = (0, 0) := by
      unfold request_endpoint
      rw [if_pos ⟨hm, rfl⟩]
    rw [hreq]
    exact ⟨rfl, rfl, hlog⟩
  · exact ⟨rfl, rfl, hlog⟩
  · refine ⟨?_, ?_, hlog⟩
    · rw [reported_status, hs]; rfl
    · rw [reported_length, hl]; rfl

/-- Witness for C3: one DELETE endpoint, an allow-list that *keeps*
DELETE and a limit that keeps it in the probe window — it is still
reported as Skipped. -/
theorem claim_C3_witness :
    upperStr (([ep_delete] : List Endpoint).getD 0 default).method = "DELETE"
    ∧ reported_status ((request_all_endpoints net0 [ep_delete] (some 5) false
        (some ["DELETE"])).getD 0 default) = 0 :=
  ⟨by decide,
   (claim_C3_delete_skipped net0 [ep_delete] (some 5) (some ["DELETE"]) 0
     (by decide) (by decide) (by decide) (by decide)).1⟩

/-- **C4** (confirmed).  For every positive request limit `N` (set
together with any allow-list and destructive flag) over a
normalizer-produced sequence: at most `N` endpoints end with a
non-`Skipped` reported outcome; every endpoint beyond position `N` of
the method-filtered sequence gets the `Skipped` sentinel `(0, 0)`
attached and is not in the to-request list (never probed); and the
output is the original sequence in original order. -/
theorem claim_C4_limit (net : Nat → String → String → NetResult)
    (eps : List Endpoint) (N : Int) (incl : Bool) (al : Option (List String))
    (hN : 0 < N) (hfresh : ∀ ep ∈ eps, ep.status_code = none) :
    ((request_all_endpoints net eps (some N) incl al).filter
        (fun ep => !(reported_status ep == 0))).length ≤ N.toNat
    ∧ (∀ i ∈ (filtered_idx eps al).drop N.toNat,
        ((request_all_endpoints net eps (some N) incl al).getD i
            default).status_code = some 0
        ∧ ((request_all_endpoints net eps (some N) incl al).getD i
            default).content_length = some 0
        ∧ i ∉ to_request_idx eps al (some N))
    ∧ (request_all_endpoints net eps (some N) incl al).map Endpoint.core
        = eps.map Endpoint.core := by
  have htr : to_request_idx eps al (some N) = (filtered_idx eps al).take N.toNat := by
    simp only [to_request_idx, pyTake]
    rw [if_pos (by omega : N ≠ 0), if_pos (by omega : (0 : Int) ≤ N)]
  refine ⟨?_, ?_, map_core_request_all net eps (some N) incl al⟩
  · rw [request_all_endpoints, ← List.countP_eq_length_filter, List.countP_map]
    have step1 :
        List.countP
          ((fun ep => !(reported_status ep == 0)) ∘
            probe_result_at net eps (some N) incl al) (List.range eps.length)
        ≤ List.countP (fun i => decide (i ∈ to_request_idx eps al (some N)))
            (List.range eps.length) := by
      apply List.countP_mono_left
      intro i hir hp
      rw [decide_eq_true_eq]
      by_contra hnot
      have hi : i < eps.length := List.mem_range.mp hir
      simp only [Function.comp] at hp
      unfold probe_result_at at hp
      rw [if_neg hnot] at hp
      by_cases hf : i ∈ filtered_idx eps al
      · rw [if_pos hf] at hp
        simp [reported_status, attach_result] at hp
      · rw [if_neg hf] at hp
        have hin : eps.getD i default ∈ eps := by
          rw [getD_eq_getElem_self hi]; exact List.getElem_mem hi
        have h0 : (eps[i]?.getD default).status_code = none := by
          rw [← List.getD_eq_getElem?_getD]; exact hfresh _ hin
        simp [reported_status, List.getD_eq_getElem?_getD, h0] at hp
    have step2 :
        List.countP (fun i => decide (i ∈ to_request_idx eps al (some N)))
            (List.range eps.length)
          ≤ (to_request_idx eps al (some N)).length := by
      rw [List.countP_eq_length_filter]
      apply List.Subperm.length_le
      apply List.subperm_of_subset
      · exact List.Nodup.filter _ (List.nodup_range _)
      · intro a ha
        rw [List.mem_filter] at ha
        exact of_decide_eq_true ha.2
    have step3 : (to_request_idx eps al (some N)).length ≤ N.toNat := by
      rw [htr]
      exact List.length_take_le _ _
    exact le_trans step1 (le_trans step2 step3)
  · intro i hid
    have hif : i ∈ filtered_idx eps al := List.drop_subset _ _ hid
    have hi : i < eps.length := (mem_filtered_idx.mp hif).1
    have hnot : i ∉ to_request_idx eps al (some N) := by
      rw [htr]
      intro hmem
      exact List.disjoint_take_drop (nodup_filtered_idx eps al)
        (le_refl N.toNat) hmem hid
    rw [getD_request_all net eps (some N) incl al hi]
    unfold probe_result_at
    rw [if_neg hnot, if_pos hif]
    exact ⟨rfl, rfl, hnot⟩

/-- Witness for C4: two GET endpoints, limit 1 — at most one
non-Skipped outcome. -/
theorem claim_C4_witness :
    (0 : Int) < 1
    ∧ ((request_all_endpoints net0 [ep_get, ep_get2] (some 1) false none).filter
        (fun ep => !(reported_status ep == 0))).length ≤ (1 : Int).toNat :=
  ⟨by decide,
   (claim_C4_limit net0 [ep_get, ep_get2] 1 false none (by decide) (by decide)).1⟩

/-- **C5** (confirmed).  In the modelled run (well-shaped document, the
external fetch's outcome given as a value), the pipeline terminates
with a non-zero exit (`Except.error`, i.e. `sys.exit(1)` before any
output file is written) in exactly two cases: the specification
document could not be fetched/decoded, or a user-supplied (truthy)
method filter yields zero valid tokens.  Moreover the success of the
run is independent of the network oracle: every per-endpoint probe
failure is absorbed into the returned endpoint sequence (as the
classified outcomes of claim C6) and never aborts the run. -/
theorem claim_C5_fatal_conditions (net : Nat → String → String → NetResult)
    (fetch : FetchResult) (args : Args) :
    ((run_pipeline net fetch args = .error ()) ↔
      (fetch = .fetchError
        ∨ (args.method.getD "" ≠ "" ∧ parse_methods (args.method.getD "") = [])))
    ∧ (∀ net', run_pipeline net fetch args = .error ()
        ↔ run_pipeline net' fetch args = .error ()) := by
  have h : ∀ n : Nat → String → String → NetResult,
      (run_pipeline n fetch args = .error ()) ↔
        (fetch = .fetchError
          ∨ (args.method.getD "" ≠ ""
              ∧ parse_methods (args.method.getD "") = [])) := by
    intro n
    cases fetch with
    | fetchError => simp [run_pipeline]
    | ok doc =>
      simp only [run_pipeline]
      by_cases hm : args.method.getD "" ≠ ""
      · rw [if_pos hm]
        by_cases he : (parse_methods (args.method.getD "")).isEmpty
        · rw [if_pos he]
          simp [hm, List.isEmpty_iff.mp he]
        · rw [if_neg he]
          simp only [List.isEmpty_iff] at he
          simp [hm, he]
      · rw [if_neg hm]
        simp [hm]
  exact ⟨h net, fun net' => (h net).trans (h net').symm⟩

/-- **C6** (confirmed).  Whenever `request_endpoint` actually issues a
request (its instrumentation records exactly one issued request), the
outcome is the total classification of whatever the network did:
a completed exchange yields the literal status code together with the
response-body byte length, a timeout yields `(-1, 0)`, a connection
failure `(-2, 0)`, any other request failure `(-3, 0)`, and any other
exception `(-4, 0)`.  Probing never raises: `request_endpoint` is a
total function into `Int × Nat`. -/
theorem claim_C6_classification (net : String → String → NetResult)
    (ep : Endpoint) (incl : Bool) (m u : String)
    (h : issued_requests ep incl = [(m, u)]) :
    request_endpoint net ep incl = classify (net m u)
    ∧ (∀ s l, classify (NetResult.response s l) = (s, l))
    ∧ classify NetResult.timeout = (-1, 0)
    ∧ classify NetResult.connectionError = (-2, 0)
    ∧ classify NetResult.requestError = (-3, 0)
    ∧ classify NetResult.otherError = (-4, 0) := by
  refine ⟨?_, fun s l => rfl, rfl, rfl, rfl, rfl⟩
  unfold issued_requests at h
  unfold request_endpoint
  split_ifs at h ⊢ <;> simp_all

/-- Witness for C6: a concrete GET endpoint, for which exactly one GET
request against its `full_url` is issued and classified. -/
theorem claim_C6_witness :
    issued_requests ep_get true = [("GET", "https://api.example.com/users")]
    ∧ request_endpoint (net0 0) ep_get true
        = classify (net0 0 "GET" "https://api.example.com/users") :=
  ⟨by decide,
   (claim_C6_classification (net0 0) ep_get true "GET"
     "https://api.example.com/users" (by decide)).1⟩

/-- **C7** (corrected).  The original claim — every emitted `fullURL`
is absolute even when the `servers` list is present but its first
entry has a missing, empty, or relative `url` — fails on the code (see
the counterexample): with `servers = [{}]` the base resolves to `""`
(line 73) and `fullURL` is the bare path.  What holds: whenever the
resolved base itself begins with a scheme and authority (absolute
override, absolute first-server url, or the document-URL fallback),
every emitted `fullURL` is absolute and the join introduces no
duplicate slash (the base never ends in `'/'`, the path part always
starts with exactly one); but with no override and a first server
entry whose url is missing or empty, every emitted `fullURL` is
non-absolute. -/
theorem claim_C7_absolute_url (doc : ApiDoc) (url : String)
    (ov : Option String) (ep : Endpoint)
    (hmem : ep ∈ extract_endpoints doc url ov) :
    (isAbsoluteURL (resolved_base doc url ov) = true →
      isAbsoluteURL ep.full_url = true
      ∧ ep.full_url = resolved_base doc url ov ++ clean_path_of ep.path
      ∧ (clean_path_of ep.path).data.head? = some '/'
      ∧ (resolved_base doc url ov).data.getLast? ≠ some '/')
    ∧ (ov.getD "" = "" → doc.servers ≠ [] →
        (doc.servers.headD ⟨none⟩).url.getD "" = "" →
        isAbsoluteURL ep.full_url = false) := by
  obtain ⟨hfu, -, -⟩ := extract_mem_spec hmem
  constructor
  · intro habs
    refine ⟨?_, hfu, clean_path_head _, base_no_trailing doc url ov habs⟩
    rw [hfu, isAbsoluteURL, String.data_append]
    exact isAbs_append habs
  · intro h1 h2 h3
    have hbase : resolved_base doc url ov = "" := by
      unfold resolved_base
      rw [if_neg (by simp [h1]), if_pos h2, h3]
      decide
    rw [hfu, hbase, isAbsoluteURL]
    have hdata : (("" : String) ++ clean_path_of ep.path).data
        = (clean_path_of ep.path).data := by
      rw [String.data_append]
      rfl
    rw [hdata]
    exact isAbs_head_slash (clean_path_head _)

/-- Counterexample for C7 as stated: with `servers = [{}]` (first
entry has no url) the emitted `fullURL` is the bare path `/users`,
which is not an absolute URL. -/
theorem claim_C7_counterexample :
    ((extract_endpoints docSrv "https://api.example.com/v2/api-docs"
        none).getD 0 default).full_url = "/users"
    ∧ isAbsoluteURL ((extract_endpoints docSrv
        "https://api.example.com/v2/api-docs" none).getD 0
          default).full_url = false := by
  constructor
  · decide
  · decide

/-- Witness for C7: with no servers entry and no override the resolved
base is absolute and the emitted `fullURL` is absolute. -/
theorem claim_C7_witness :
    isAbsoluteURL (resolved_base docEx "https://api.example.com/v2/api-docs"
        none) = true
    ∧ isAbsoluteURL ((extract_endpoints docEx
        "https://api.example.com/v2/api-docs" none).getD 0
          default).full_url = true :=
  ⟨by decide,
   ((claim_C7_absolute_url docEx "https://api.example.com/v2/api-docs" none
       ((extract_endpoints docEx "https://api.example.com/v2/api-docs"
         none).getD 0 default) (by decide)).1 (by decide)).1⟩

/-- **C8** (confirmed).  Base-URL resolution follows the fixed order,
first match wins: truthy override right-trimmed of `/`; else the first
server entry's url, right-trimmed; else scheme + authority of the
document source URL; and every emitted `fullURL` is the resolved base
concatenated with the path prepended with `/` when it lacks one.  The
spec's concrete example resolves path `users` against document URL
`https://api.example.com/v2/api-docs` (no servers, no override) to
`https://api.example.com/users`. -/
theorem claim_C8_base_resolution (doc : ApiDoc) (url : String)
    (ov : Option String) :
    (ov.getD "" ≠ "" → resolved_base doc url ov = rstripSlash (ov.getD ""))
    ∧ (ov.getD "" = "" → doc.servers ≠ [] →
        resolved_base doc url ov
          = rstripSlash ((doc.servers.headD ⟨none⟩).url.getD ""))
    ∧ (ov.getD "" = "" → doc.servers = [] →
        resolved_base doc url ov
          = (schemeNetloc url).1 ++ "://" ++ (schemeNetloc url).2)
    ∧ (∀ ep ∈ extract_endpoints doc url ov,
        ep.full_url = resolved_base doc url ov ++ clean_path_of ep.path)
    ∧ extract_endpoints docEx "https://api.example.com/v2/api-docs" none
        = [epEx] := by
  refine ⟨?_, ?_, ?_, ?_, by decide⟩
  · intro h
    unfold resolved_base
    rw [if_pos h]
  · intro h1 h2
    unfold resolved_base
    rw [if_neg (by simp [h1]), if_pos h2]
  · intro h1 h2
    unfold resolved_base
    rw [if_neg (by simp [h1]), if_neg (by simp [h2])]
  · intro ep hmem
    exact (extract_mem_spec hmem).1

/-- Witness for C8: the document-URL fallback branch at the spec's
concrete example. -/
theorem claim_C8_witness :
    (Option.none : Option String).getD "" = ""
    ∧ resolved_base docEx "https://api.example.com/v2/api-docs" none
        = (schemeNetloc "https://api.example.com/v2/api-docs").1 ++ "://"
          ++ (schemeNetloc "https://api.example.com/v2/api-docs").2 :=
  ⟨rfl,
   (claim_C8_base_resolution docEx "https://api.example.com/v2/api-docs"
     none).2.2.1 rfl rfl⟩

/-- **C9** (confirmed).  Byte-length formatting in the HTML report and
the CSV export is the same function; a status code of 0 or negative is
shown as the literal `"/"`; lengths under 1024 are shown as the bare
integer; lengths under 1048576 as one-decimal kilobytes with a `K`
suffix; anything larger as one-decimal megabytes with an `M` suffix;
and the boundaries are exact: 1023 → `"1023"`, 1024 → `"1.0K"`,
1048575 → `"1024.0K"`, 1048576 → `"1.0M"`. -/
theorem claim_C9_length_format (s : Int) (l : Nat) :
    (length_display_csv s l = length_display_html s l)
    ∧ (s = 0 ∨ s < 0 → length_display_html s l = "/")
    ∧ (0 < s → l < 1024 → length_display_html s l = toString l)
    ∧ (0 < s → 1024 ≤ l → l < 1048576 →
        length_display_html s l = formatOneDecimal l 1024 ++ "K")
    ∧ (0 < s → 1048576 ≤ l →
        length_display_html s l = formatOneDecimal l (1024 * 1024) ++ "M")
    ∧ (0 < s →
        length_display_html s 1023 = "1023"
        ∧ length_display_html s 1024 = "1.0K"
        ∧ length_display_html s 1048575 = "1024.0K"
        ∧ length_display_html s 1048576 = "1.0M") := by
  refine ⟨rfl, ?_, ?_, ?_, ?_, ?_⟩
  · intro h; unfold length_display_html; rw [if_pos h]
  · intro hs hl
    unfold length_display_html
    rw [if_neg (by omega)]
    by_cases h0 : l = 0
    · subst h0; rw [if_pos rfl]; decide
    · rw [if_neg h0, if_pos hl]
  · intro hs h1 h2
    unfold length_display_html
    rw [if_neg (by omega), if_neg (by omega), if_neg (by omega), if_pos h2]
  · intro hs h1
    unfold length_display_html
    rw [if_neg (by omega), if_neg (by omega), if_neg (by omega), if_neg (by omega)]
  · intro hs
    refine ⟨?_, ?_, ?_, ?_⟩ <;>
      (unfold length_display_html; rw [if_neg (by omega)]) <;> decide

/-- Witness for C9 at a positive status code. -/
theorem claim_C9_witness :
    (0 : Int) < 200 ∧ length_display_html 200 1048575 = "1024.0K" :=
  ⟨by decide, ((claim_C9_length_format 200 1048575).2.2.2.2.2 (by decide)).2.2.1⟩

/-- **C10** (confirmed).  Both renderers read the status code and
content length with a default of 0 (`endpoint.get(..., 0)`), so an
endpoint that never had an outcome attached — e.g. one excluded by the
method allow-list — renders totally, as the `Skipped` label with the
`"/"` length marker, rather than raising a missing-key error.
(Totality of rendering is inherent to the model: `html_row` and
`csv_row` are total functions.) -/
theorem claim_C10_renderer_total (ep : Endpoint) (i : Nat)
    (h1 : ep.status_code = none) (h2 : ep.content_length = none) :
    (html_row i ep).status_cell.1 = "跳过"
    ∧ (html_row i ep).length_cell = "/"
    ∧ (csv_row ep).status_str = "跳过"
    ∧ (csv_row ep).length_str = "/" := by
  have hs : reported_status ep = 0 := by rw [reported_status, h1]; rfl
  have hl : reported_length ep = 0 := by rw [reported_length, h2]; rfl
  refine ⟨?_, ?_, ?_, ?_⟩
  · show (status_display_html (reported_status ep)).1 = "跳过"
    rw [hs]; rfl
  · show length_display_html (reported_status ep) (reported_length ep) = "/"
    rw [hs, hl]; rfl
  · show status_display_csv (reported_status ep) = "跳过"
    rw [hs]; rfl
  · show length_display_csv (reported_status ep) (reported_length ep) = "/"
    rw [hs, hl]; rfl

/-- Witness for C10: the default endpoint value has no attached
outcome and renders as Skipped with the `"/"` marker. -/
theorem claim_C10_witness :
    (default : Endpoint).status_code = none
    ∧ (html_row 1 (default : Endpoint)).length_cell = "/" :=
  ⟨rfl, (claim_C10_renderer_total default 1 rfl rfl).2.1⟩

end ApiGet
